import Mathlib

/-!
Shallow embedding of the cold-outreach pipeline (app.py, email_composer.py):
the token-budget rate limiter, the generation request loop with its retry
policy and output cleanup, the (subject, body) parser, the JSON-append step
of the composer main loop, and the stage orchestrator.

Time is modelled in microseconds (`Nat`), matching Python `datetime`
resolution; token amounts are modelled as `Int`.  Strings are modelled as
`List Char`.
-/

namespace ColdOutreach

/-! ### Rate limiter (email_composer.py, class TokenRateLimiter) -/

/-- State of `TokenRateLimiter`: per-minute budget, tokens consumed in the
current window, and the window-start timestamp in microseconds. -/
structure TokenRateLimiter where
  tokens_per_minute : Int
  used_tokens : Int
  window_start : Nat
deriving Repr, DecidableEq

/-- One minute, in microseconds (`timedelta(minutes=1)`). -/
def microsPerMinute : Nat := 60000000

/-- The `.seconds` attribute of a non-negative Python `timedelta` given in
microseconds: whole seconds within the day component. -/
def tdSeconds (micros : Nat) : Nat := (micros / 1000000) % 86400

/-- `TokenRateLimiter.request_permission`: returns the seconds to wait and
the updated limiter state.  Mirrors the source: reset the window if more
than one minute has elapsed; otherwise grant when the remaining budget
covers the estimate; otherwise report the seconds until the window resets. -/
def TokenRateLimiter.request_permission (st : TokenRateLimiter) (now : Nat)
    (estimated_tokens : Int) : Int × TokenRateLimiter :=
  let elapsed := now - st.window_start
  if microsPerMinute < elapsed then
    (0, { st with used_tokens := 0, window_start := now })
  else
    let remaining_tokens := st.tokens_per_minute - st.used_tokens
    if estimated_tokens ≤ remaining_tokens then
      (0, st)
    else
      ((60 : Int) - (tdSeconds elapsed : Int), st)

/-- `TokenRateLimiter.record_usage`: add the actual reported cost to the
consumed counter. -/
def TokenRateLimiter.record_usage (st : TokenRateLimiter) (tokens_used : Int) :
    TokenRateLimiter :=
  { st with used_tokens := st.used_tokens + tokens_used }

/-! ### String helpers modelling the Python string operations used -/

/-- Python `str.lower` restricted to ASCII letters (the only case-changing
characters the composer markers contain). -/
def pyLower (c : Char) : Char :=
  if 'A' ≤ c ∧ c ≤ 'Z' then Char.ofNat (c.toNat + 32) else c

/-- Python `str.find`: index of the first occurrence of `pat`, if any. -/
def findSub (pat : List Char) : List Char → Option Nat
  | [] => if pat.isPrefixOf ([] : List Char) then some 0 else none
  | c :: rest =>
    if pat.isPrefixOf (c :: rest) then some 0
    else (findSub pat rest).map (fun i => i + 1)

/-- Characters stripped by Python `str.strip()` (ASCII whitespace). -/
def isSpaceChar (c : Char) : Bool :=
  c = ' ' || c = '\t' || c = '\n' || c = '\r' || c.toNat = 11 || c.toNat = 12

/-- Python `str.strip()`: drop whitespace from both ends. -/
def pyStrip (s : List Char) : List Char :=
  ((s.dropWhile isSpaceChar).reverse.dropWhile isSpaceChar).reverse

/-- The lead-in phrases the composer tests with `startswith` on the
lowercased response. -/
def introPhrases : List (List Char) :=
  ["hier ist".toList, "hier ist die".toList, "das ist".toList, "ich habe".toList]

/-- `email_content.lower().startswith(("hier ist", ...))`. -/
def hasIntro (low : List Char) : Bool :=
  introPhrases.any (fun p => p.isPrefixOf low)

/-- The cleanup step of `generate_email_with_groq`: when the response opens
with a throwaway lead-in, truncate everything before the (case-insensitive)
content marker found by `lower().find("betreff:")`. -/
def cleanupEmail (email_content : List Char) : List Char :=
  let low := email_content.map pyLower
  if hasIntro low then
    match findSub ("betreff:".toList) low with
    | some i => email_content.drop i
    | none => email_content
  else
    email_content

/-- `parse_email_content`: split at the literal marker `"Betreff:"`, strip,
then split at the first line break; defaults to an empty subject and the
whole input as body when the marker is absent. -/
def parse_email_content (email_content : List Char) : List Char × List Char :=
  match findSub ("Betreff:".toList) email_content with
  | none => ([], email_content)
  | some i =>
    let content := pyStrip (email_content.drop (i + 8))
    match content.findIdx? (fun c => c = '\n') with
    | some j => (pyStrip (content.take j), pyStrip (content.drop j))
    | none => (content, [])

/-! ### Generation request loop (email_composer.py, generate_email_with_groq) -/

/-- `max_retries = 3` in the source. -/
def maxRetries : Nat := 3

/-- What one HTTP attempt (`requests.post` plus response handling) yields:
a 429 throttle (with optional Retry-After, and the message of the
`HTTPError` that `raise_for_status` raises when the 429 is not retried), a
`RequestException` from transport, a 200 with `choices` (content and
optional `usage.total_tokens`), a 200 without `choices`, or some other
exception. -/
inductive AttemptOutcome where
  | http429 (retryAfter : Option Nat) (errMsg : List Char)
  | requestError (errMsg : List Char)
  | okChoices (content : List Char) (totalTokens : Option Int)
  | okNoChoices
  | otherError (errMsg : List Char)
deriving Repr, DecidableEq

/-- Observable interactions of the request loop: a rate-limiter permission
check, an HTTP POST, a usage record. -/
inductive Event where
  | permit
  | post
  | record
deriving Repr, DecidableEq

/-- `f"API Error after {max_retries} attempts: {str(e)}"`. -/
def apiErrorMsg (msg : List Char) : List Char :=
  "API Error after 3 attempts: ".toList ++ msg

/-- The error string returned when the 200 response has no choices: the
literal prefix followed by the lead name. -/
def noChoicesMsg (name : List Char) : List Char :=
  "Error: Unable to generate email for ".toList ++ name

/-- `f"Error: {str(e)}"` for a non-`RequestException` exception. -/
def otherErrorMsg (msg : List Char) : List Char :=
  "Error: ".toList ++ msg

/-- The `for attempt in range(max_retries)` loop of
`generate_email_with_groq`, iterated from index `attempt` with `fuel`
iterations remaining (`fuel = maxRetries - attempt` at every call).
Returns the string the function returns, the trace of events, and the
final rate-limiter state.  A 429 or a `RequestException` on a non-final
attempt sleeps and moves to the next attempt; on the final attempt both
reach the `RequestException` handler, which returns the API-error string.
A response with `choices` is cleaned, its usage (or the estimate) is
recorded, and the content is returned. -/
def runAttempts (env : Nat → AttemptOutcome) (leadName : List Char)
    (estimated : Int) : Nat → Nat → TokenRateLimiter →
    List Char × List Event × TokenRateLimiter
  | _, 0, rl => ([], [], rl)
  | attempt, fuel + 1, rl =>
    match env attempt with
    | .http429 _ msg =>
      if attempt < maxRetries - 1 then
        let r := runAttempts env leadName estimated (attempt + 1) fuel rl
        (r.1, .post :: r.2.1, r.2.2)
      else
        (apiErrorMsg msg, [.post], rl)
    | .requestError msg =>
      if attempt < maxRetries - 1 then
        let r := runAttempts env leadName estimated (attempt + 1) fuel rl
        (r.1, .post :: r.2.1, r.2.2)
      else
        (apiErrorMsg msg, [.post], rl)
    | .okChoices content usage =>
      (cleanupEmail content, [.post, .record], rl.record_usage (usage.getD estimated))
    | .okNoChoices => (noChoicesMsg leadName, [.post], rl)
    | .otherError msg => (otherErrorMsg msg, [.post], rl)

/-- `generate_email_with_groq`: one rate-limiter permission check with the
estimated cost, then the attempt loop starting at attempt 0 with
`maxRetries` iterations available. -/
def generate_email_with_groq (env : Nat → AttemptOutcome) (leadName : List Char)
    (estimated : Int) (now : Nat) (rl : TokenRateLimiter) :
    List Char × List Event × TokenRateLimiter :=
  let p := rl.request_permission now estimated
  let r := runAttempts env leadName estimated 0 maxRetries p.2
  (r.1, .permit :: r.2.1, r.2.2)

/-! ### Composer main loop: persistence decision (email_composer.py, main) -/

/-- One element of the persisted JSON array: `{subject, from, to, body}`
(the `from` field is a fixed configuration value, omitted here). -/
structure EmailData where
  subject : List Char
  recipient : List Char
  body : List Char
deriving Repr, DecidableEq

/-- The guard in `main`:
`email_content and not startswith("Error:") and not startswith("API Error:")`. -/
def shouldSave (email_content : List Char) : Bool :=
  !email_content.isEmpty
    && !(("Error:".toList).isPrefixOf email_content)
    && !(("API Error:".toList).isPrefixOf email_content)

/-- `update_json_file`: read the array, append the new record, rewrite. -/
def update_json_file (all_emails : List EmailData) (email_data : EmailData) :
    List EmailData :=
  all_emails ++ [email_data]

/-- The per-lead body of the main loop after the skip checks: generate,
then append a parsed record to the JSON array exactly when the guard
accepts the generated string. -/
def processLead (env : Nat → AttemptOutcome) (leadName recipient : List Char)
    (estimated : Int) (now : Nat) (rl : TokenRateLimiter)
    (emails : List EmailData) : List EmailData × TokenRateLimiter :=
  let g := generate_email_with_groq env leadName estimated now rl
  if shouldSave g.1 then
    let sb := parse_email_content g.1
    (update_json_file emails ⟨sb.1, recipient, sb.2⟩, g.2.2)
  else
    (emails, g.2.2)

/-! ### Pipeline orchestrator (app.py, main / load_module / run_module) -/

/-- Outcome of one stage as `main` observes it: the module file is missing,
`load_module` returned `None`, the module has no `main`, `main` raised, or
`main` returned (None, or a value with the given truthiness). -/
inductive StageOutcome where
  | missing
  | loadError
  | noMain
  | raised
  | returned (value : Option Bool)
deriving Repr, DecidableEq

/-- Whether the orchestrator loop body treats the stage as successful:
the file exists, the module loads, `main` exists and does not raise, and
its result is `None` or truthy. -/
def stageSucceeds : StageOutcome → Bool
  | .missing => false
  | .loadError => false
  | .noMain => false
  | .raised => false
  | .returned none => true
  | .returned (some b) => b

/-- The loop of `main` in app.py: process stages in order, returning `False` at the
first failing stage.  Also returns how many stages the loop processed, so
that early exit is observable. -/
def orchestrate : List StageOutcome → Bool × Nat
  | [] => (true, 0)
  | s :: rest =>
    if stageSucceeds s then
      let r := orchestrate rest
      (r.1, r.2 + 1)
    else
      (false, 1)

/-! ### Concrete fixtures used by counterexamples and witnesses -/

/-- A fresh limiter: budget 6000, nothing consumed, window started at 0. -/
def rlInit : TokenRateLimiter := ⟨6000, 0, 0⟩

/-- A limiter whose budget is fully consumed in the current window. -/
def rlFull : TokenRateLimiter := ⟨6000, 6000, 0⟩

/-- A limiter with 100 tokens consumed in the current window. -/
def rlPart : TokenRateLimiter := ⟨6000, 100, 0⟩

/-! ### Theorems: rate limiter -/

/-- Claim C3: whenever no more than one minute has elapsed since window
start and the estimated cost is at most the remaining budget (ceiling
minus consumed), `request_permission` returns a zero wait. -/
theorem request_permission_grants_within_budget (st : TokenRateLimiter)
    (now : Nat) (cost : Int)
    (helapsed : now - st.window_start ≤ microsPerMinute)
    (hcost : cost ≤ st.tokens_per_minute - st.used_tokens) :
    (st.request_permission now cost).1 = 0 := by
  unfold TokenRateLimiter.request_permission
  rw [if_neg (by omega), if_pos hcost]

/-- Witness for C3: a fresh limiter one millisecond into its window grants
a request of 1500 tokens at once. -/
theorem request_permission_grants_within_budget_witness :
    1000 - rlInit.window_start ≤ microsPerMinute
    ∧ (1500 : Int) ≤ rlInit.tokens_per_minute - rlInit.used_tokens
    ∧ (rlInit.request_permission 1000 1500).1 = 0 :=
  ⟨by decide, by decide,
    request_permission_grants_within_budget rlInit 1000 1500 (by decide) (by decide)⟩

/-- Counterexample to claim C4 as stated: at exactly one minute elapsed
(which satisfies the claim hypothesis that no more than one minute has
elapsed), with the budget exhausted and a cost of 1500 exceeding the zero
remaining budget, `request_permission` returns wait 0, not a strictly
positive wait. -/
theorem wait_zero_at_exact_window_boundary :
    60000000 - rlFull.window_start ≤ microsPerMinute
    ∧ rlFull.tokens_per_minute - rlFull.used_tokens < 1500
    ∧ ¬ (0 < (rlFull.request_permission 60000000 1500).1) := by
  refine ⟨by decide, by decide, by decide⟩

/-- Claim C4 (amended): when strictly less than one minute has elapsed
since window start and the estimated cost strictly exceeds the remaining
budget, `request_permission` returns a strictly positive wait of at most
60 seconds. -/
theorem request_permission_delay_bounds (st : TokenRateLimiter) (now : Nat)
    (cost : Int) (_hws : st.window_start ≤ now)
    (helapsed : now - st.window_start < microsPerMinute)
    (hcost : st.tokens_per_minute - st.used_tokens < cost) :
    0 < (st.request_permission now cost).1
    ∧ (st.request_permission now cost).1 ≤ 60 := by
  unfold TokenRateLimiter.request_permission
  rw [if_neg (by omega), if_neg (by omega)]
  have h1 : tdSeconds (now - st.window_start) ≤ 59 := by
    unfold tdSeconds
    unfold microsPerMinute at helapsed
    omega
  constructor
  · have : (tdSeconds (now - st.window_start) : Int) ≤ 59 := by exact_mod_cast h1
    omega
  · have : (0 : Int) ≤ (tdSeconds (now - st.window_start) : Int) := by positivity
    omega

/-- Witness for C4 (amended): a limiter 30 seconds into a window with its
budget exhausted reports a wait of 30 seconds, within the bounds. -/
theorem request_permission_delay_bounds_witness :
    rlFull.window_start ≤ 30000000
    ∧ 30000000 - rlFull.window_start < microsPerMinute
    ∧ rlFull.tokens_per_minute - rlFull.used_tokens < 1500
    ∧ (0 < (rlFull.request_permission 30000000 1500).1
        ∧ (rlFull.request_permission 30000000 1500).1 ≤ 60) :=
  ⟨by decide, by decide, by decide,
    request_permission_delay_bounds rlFull 30000000 1500 (by decide) (by decide) (by decide)⟩

/-- Claim C5: the consumed counter never decreases within a window
(`record_usage` with a non-negative cost only adds; a permission check
that stays inside the window leaves the counter and the window start
untouched), and a permission check after more than one minute has elapsed
returns a zero wait, resets the counter to exactly 0, and starts the new
window at the current time, regardless of prior accumulation. -/
theorem limiter_window_invariant (st : TokenRateLimiter) (now : Nat)
    (cost x : Int) (hx : 0 ≤ x) :
    st.used_tokens ≤ (st.record_usage x).used_tokens
    ∧ (now - st.window_start ≤ microsPerMinute →
        ((st.request_permission now cost).2).used_tokens = st.used_tokens
        ∧ ((st.request_permission now cost).2).window_start = st.window_start)
    ∧ (microsPerMinute < now - st.window_start →
        (st.request_permission now cost).1 = 0
        ∧ ((st.request_permission now cost).2).used_tokens = 0
        ∧ ((st.request_permission now cost).2).window_start = now) := by
  refine ⟨?_, ?_, ?_⟩
  · unfold TokenRateLimiter.record_usage
    simp only
    omega
  · intro h
    unfold TokenRateLimiter.request_permission
    rw [if_neg (by omega)]
    dsimp only
    split <;> exact ⟨rfl, rfl⟩
  · intro h
    unfold TokenRateLimiter.request_permission
    rw [if_pos (by omega)]
    exact ⟨rfl, rfl, rfl⟩

/-- Witness for C5: a limiter with 100 tokens consumed, checked 61 seconds
after window start, with a recorded cost of 5. -/
theorem limiter_window_invariant_witness :
    (0 : Int) ≤ 5
    ∧ (rlPart.used_tokens ≤ (rlPart.record_usage 5).used_tokens
      ∧ (61000000 - rlPart.window_start ≤ microsPerMinute →
          ((rlPart.request_permission 61000000 10).2).used_tokens = rlPart.used_tokens
          ∧ ((rlPart.request_permission 61000000 10).2).window_start = rlPart.window_start)
      ∧ (microsPerMinute < 61000000 - rlPart.window_start →
          (rlPart.request_permission 61000000 10).1 = 0
          ∧ ((rlPart.request_permission 61000000 10).2).used_tokens = 0
          ∧ ((rlPart.request_permission 61000000 10).2).window_start = 61000000)) :=
  ⟨by decide, limiter_window_invariant rlPart 61000000 10 5 (by decide)⟩

/-- Counterexample to claim C6 as stated: with 100 tokens consumed and the
window already elapsed (61 seconds old), recording a usage of 5 and then
checking permission resets the window, so the apparent remaining budget
rises by 100 instead of falling by at least 5. -/
theorem record_usage_reset_counterexample :
    (rlPart.tokens_per_minute - rlPart.used_tokens)
      - ((((rlPart.record_usage 5).request_permission 61000000 1500).2).tokens_per_minute
        - (((rlPart.record_usage 5).request_permission 61000000 1500).2).used_tokens)
      < 5 := by
  decide

/-- Claim C6 (amended): provided the permission check still falls within
the current window (no more than one minute since window start),
`record_usage x` followed immediately by a permission check decreases the
apparent remaining budget (ceiling minus consumed) by exactly `x` — in
particular never by less than `x`. -/
theorem record_usage_decreases_budget_within_window (st : TokenRateLimiter)
    (now : Nat) (cost x : Int)
    (h : now - st.window_start ≤ microsPerMinute) :
    (st.tokens_per_minute - st.used_tokens)
      - ((((st.record_usage x).request_permission now cost).2).tokens_per_minute
        - (((st.record_usage x).request_permission now cost).2).used_tokens)
      = x := by
  unfold TokenRateLimiter.record_usage TokenRateLimiter.request_permission
  simp only
  rw [if_neg (by simpa using Nat.not_lt.mpr h)]
  split <;> simp

/-- Witness for C6 (amended): recording 5 tokens on a limiter one
millisecond into its window lowers the apparent remaining budget by
exactly 5. -/
theorem record_usage_decreases_budget_within_window_witness :
    1000 - rlPart.window_start ≤ microsPerMinute
    ∧ (rlPart.tokens_per_minute - rlPart.used_tokens)
      - ((((rlPart.record_usage 5).request_permission 1000 1500).2).tokens_per_minute
        - (((rlPart.record_usage 5).request_permission 1000 1500).2).used_tokens)
      = 5 :=
  ⟨by decide, record_usage_decreases_budget_within_window rlPart 1000 1500 5 (by decide)⟩

/-- Claim C10: once more than one minute has elapsed since window start,
`request_permission` grants any estimated cost — even one exceeding the
whole per-minute ceiling — with zero wait and a reset counter, and a
subsequent `record_usage` of that cost drives the consumed counter above
the ceiling. -/
theorem window_reset_grants_any_cost (st : TokenRateLimiter) (now : Nat)
    (e : Int) (h : microsPerMinute < now - st.window_start)
    (he : st.tokens_per_minute < e) :
    (st.request_permission now e).1 = 0
    ∧ ((st.request_permission now e).2).used_tokens = 0
    ∧ (((st.request_permission now e).2).record_usage e).used_tokens = e
    ∧ (((st.request_permission now e).2).record_usage e).tokens_per_minute
      < (((st.request_permission now e).2).record_usage e).used_tokens := by
  unfold TokenRateLimiter.request_permission TokenRateLimiter.record_usage
  rw [if_pos (by omega)]
  refine ⟨rfl, rfl, by simp, by simpa using he⟩

/-- Witness for C10: 61 seconds into a window with 100 tokens consumed, a
request estimated at 999999 tokens (far above the 6000 ceiling) is granted
immediately, and recording it leaves 999999 consumed. -/
theorem window_reset_grants_any_cost_witness :
    microsPerMinute < 61000000 - rlPart.window_start
    ∧ rlPart.tokens_per_minute < 999999
    ∧ ((rlPart.request_permission 61000000 999999).1 = 0
      ∧ ((rlPart.request_permission 61000000 999999).2).used_tokens = 0
      ∧ (((rlPart.request_permission 61000000 999999).2).record_usage 999999).used_tokens = 999999
      ∧ (((rlPart.request_permission 61000000 999999).2).record_usage 999999).tokens_per_minute
        < (((rlPart.request_permission 61000000 999999).2).record_usage 999999).used_tokens) :=
  ⟨by decide, by decide,
    window_reset_grants_any_cost rlPart 61000000 999999 (by decide) (by decide)⟩

/-! ### Theorems: response cleanup and parsing -/

/-- An index reported by `findSub` really is an occurrence of the
pattern. -/
lemma findSub_isPrefixOf {pat : List Char} :
    ∀ {l : List Char} {i : Nat}, findSub pat l = some i →
      pat.isPrefixOf (l.drop i) = true
  | [], i, h => by
    by_cases hp : pat.isPrefixOf ([] : List Char)
    · simp only [findSub, hp, if_true, Option.some.injEq] at h
      subst h
      simpa using hp
    · simp [findSub, hp] at h
  | c :: rest, i, h => by
    by_cases hp : pat.isPrefixOf (c :: rest)
    · simp only [findSub, hp, if_true, Option.some.injEq] at h
      subst h
      simpa using hp
    · simp only [findSub, if_neg hp] at h
      cases hrec : findSub pat rest with
      | none => rw [hrec] at h; simp at h
      | some j =>
        rw [hrec] at h
        simp only [Option.map_some', Option.some.injEq] at h
        subst h
        simpa using findSub_isPrefixOf hrec

/-- The concrete response text of the C7 scenario. -/
def exResponse : List Char := "Hier ist die E-Mail:\nBetreff: Hallo\nText".toList

/-- Claim C7: when the response text opens with one of the known throwaway
lead-in phrases and the lowercased text contains the content marker at
index `i`, the cleanup step drops everything before the marker, so the
cleaned output begins (case-insensitively) with the marker. -/
theorem cleanup_truncates_before_marker (s : List Char) (i : Nat)
    (hintro : hasIntro (s.map pyLower) = true)
    (hfind : findSub ("betreff:".toList) (s.map pyLower) = some i) :
    cleanupEmail s = s.drop i
    ∧ ("betreff:".toList).isPrefixOf ((s.drop i).map pyLower) = true := by
  constructor
  · simp only [cleanupEmail, hintro, eq_self_iff_true, if_true]
    rw [hfind]
  · have h := findSub_isPrefixOf hfind
    rwa [← List.map_drop] at h

/-- Witness for C7: the scenario input from the spec; the marker sits at
index 21 and the cleaned output starts at the subject line. -/
theorem cleanup_truncates_before_marker_witness :
    (hasIntro (exResponse.map pyLower) = true
      ∧ findSub ("betreff:".toList) (exResponse.map pyLower) = some 21)
    ∧ (cleanupEmail exResponse = exResponse.drop 21
      ∧ ("betreff:".toList).isPrefixOf ((exResponse.drop 21).map pyLower) = true) :=
  ⟨⟨by decide, by decide⟩,
    cleanup_truncates_before_marker exResponse 21 (by decide) (by decide)⟩

/-- Claim C8: parsing splits at the fixed marker and the first following
line break; the scenario input yields subject `Hallo` and body
`Liebe Grüße`. -/
theorem parse_email_content_example :
    parse_email_content ("Betreff: Hallo\nLiebe Grüße".toList)
      = ("Hallo".toList, "Liebe Grüße".toList) := by
  decide

/-! ### Theorems: request loop and composer main loop -/

/-- An environment in which every HTTP attempt raises a transport error. -/
def failEnv : Nat → AttemptOutcome :=
  fun _ => .requestError ("Connection refused".toList)

/-- An environment whose first attempt raises a transport error and whose
second attempt succeeds. -/
def retryEnv : Nat → AttemptOutcome :=
  fun n =>
    if n = 0 then .requestError ("timeout".toList)
    else .okChoices ("Betreff: Hi\nBody".toList) (some 500)

/-- Claim C1 evaluated on the code: when all three attempts fail with a
transport error, `generate_email_with_groq` returns the failure string
carrying the last error, but the save guard in `main` accepts that string
(it starts with `API Error after`, not `API Error:` or `Error:`), so a
record with an empty subject and the failure text as body IS appended to
the JSON array — the file does not stay unchanged. -/
theorem transport_failure_record_is_appended :
    (generate_email_with_groq failEnv ("Beispiel GmbH".toList) 1500 1000 rlInit).1
      = apiErrorMsg ("Connection refused".toList)
    ∧ shouldSave (apiErrorMsg ("Connection refused".toList)) = true
    ∧ (processLead failEnv ("Beispiel GmbH".toList) ("info@beispiel.de".toList)
        1500 1000 rlInit []).1
      = [⟨[], "info@beispiel.de".toList, apiErrorMsg ("Connection refused".toList)⟩] := by
  refine ⟨by decide, by decide, by decide⟩

/-- Counterexample to claim C2 as stated: in a run whose first attempt
fails with a transport error and whose second succeeds, two HTTP posts are
issued but the rate limiter is consulted only once — the retry is not
preceded by a fresh permission check. -/
theorem retry_not_preceded_by_permission_check :
    ((generate_email_with_groq retryEnv ("X".toList) 1500 1000 rlInit).2.1).count
        Event.post = 2
    ∧ ((generate_email_with_groq retryEnv ("X".toList) 1500 1000 rlInit).2.1).count
        Event.permit = 1 := by
  decide

/-- The attempt loop itself never consults the rate limiter. -/
lemma runAttempts_no_permit (env : Nat → AttemptOutcome) (leadName : List Char)
    (estimated : Int) :
    ∀ (fuel attempt : Nat) (rl : TokenRateLimiter),
      Event.permit ∉ (runAttempts env leadName estimated attempt fuel rl).2.1 := by
  intro fuel
  induction fuel with
  | zero =>
    intro attempt rl
    simp [runAttempts]
  | succ n ih =>
    intro attempt rl
    simp only [runAttempts]
    cases env attempt with
    | http429 ra msg =>
      by_cases h : attempt < maxRetries - 1
      · simp only [if_pos h, List.mem_cons, not_or]
        exact ⟨by simp, ih (attempt + 1) rl⟩
      · simp [if_neg h]
    | requestError msg =>
      by_cases h : attempt < maxRetries - 1
      · simp only [if_pos h, List.mem_cons, not_or]
        exact ⟨by simp, ih (attempt + 1) rl⟩
      · simp [if_neg h]
    | okChoices content usage => simp
    | okNoChoices => simp
    | otherError msg => simp

/-- Claim C2 (amended): in every run of `generate_email_with_groq`, the
rate limiter is consulted exactly once, before the first attempt; retries
after a throttling or transport failure reuse that single permission and
do not call `request_permission` again. -/
theorem permission_checked_once_per_call (env : Nat → AttemptOutcome)
    (leadName : List Char) (estimated : Int) (now : Nat)
    (rl : TokenRateLimiter) :
    ((generate_email_with_groq env leadName estimated now rl).2.1).count
        Event.permit = 1
    ∧ ((generate_email_with_groq env leadName estimated now rl).2.1).head?
      = some Event.permit := by
  have hne := runAttempts_no_permit env leadName estimated maxRetries 0
    ((rl.request_permission now estimated).2)
  constructor
  · simp only [generate_email_with_groq]
    rw [List.count_cons, List.count_eq_zero.mpr hne]
    simp
  · rfl

/-! ### Theorems: pipeline orchestrator -/

/-- Modelled from the spec: the number of stages the orchestrator is said
to run — every stage up to and including the first failing one, or all of
them when none fails. -/
def specStagesRun : List StageOutcome → Nat
  | [] => 0
  | s :: rest => if stageSucceeds s then specStagesRun rest + 1 else 1

/-- Claim C9: the orchestrator reports overall success exactly when every
stage succeeds, and the number of stages it processes equals the count up
to and including the first failure — so no stage after the first failing
one is ever run (for stages `[A ok, B fail, C]` it runs exactly 2 stages
and returns failure). -/
theorem orchestrator_stops_at_first_failure (stages : List StageOutcome) :
    ((orchestrate stages).1 = true ↔ ∀ s ∈ stages, stageSucceeds s = true)
    ∧ (orchestrate stages).2 = specStagesRun stages
    ∧ (orchestrate stages).2 ≤ stages.length := by
  induction stages with
  | nil => simp [orchestrate, specStagesRun]
  | cons s rest ih =>
    by_cases hs : stageSucceeds s
    · refine ⟨?_, ?_, ?_⟩
      · simp only [orchestrate, if_pos hs, List.forall_mem_cons, hs, true_and]
        exact ih.1
      · simp only [orchestrate, specStagesRun, if_pos hs]
        exact congrArg (· + 1) ih.2.1
      · simp only [orchestrate, if_pos hs, List.length_cons]
        exact Nat.add_le_add_right ih.2.2 1
    · refine ⟨?_, ?_, ?_⟩
      · simp [orchestrate, if_neg hs, List.forall_mem_cons, hs]
      · simp [orchestrate, specStagesRun, if_neg hs]
      · simp [orchestrate, if_neg hs]

end ColdOutreach
